import Mathlib

set_option linter.unusedVariables false

/-!
Verification of the 1D potential library (`src/potential1D.py`).

The source is a small Python library of 1D model potentials.  We build a
shallow embedding: Python floats become `ℝ`, Python exceptions become an
explicit `Except PyErr` result, and Python's duck-typed position inputs
become an explicit sum type `PyObj`.  Each Python method is translated to a
Lean function of the same name (modulo the leading underscore of private
methods, which Lean identifiers drop).
-/

/-- The kinds of Python exceptions the source can raise:
`NotImplementedError` (unimplemented operations), `TypeError`
(ill-typed arithmetic such as `float * list`), `ValueError`
(`float("abc")`), and `IOError` (raised by `envelopedPotential.__init__`
for invalid configurations). -/
inductive PyErr where
  | notImplementedError : PyErr
  | typeError : PyErr
  | valueError : PyErr
  | ioError : PyErr

/-- A Python value that can appear as an element of a positions input:
an int, a float, or a string.  A string is represented by `some r` when it
is numeric and parses to the real `r`, and by `none` when it is not
numeric. -/
inductive PyVal where
  | pyInt : ℤ → PyVal
  | pyFloat : ℝ → PyVal
  | pyStr : Option ℝ → PyVal

/-- A Python object passed as the `positions` argument of a public
operation: a scalar (int, float or string), a list, or any other iterable
(tuple, array, ...) of values. -/
inductive PyObj where
  | scalar : PyVal → PyObj
  | pyList : List PyVal → PyObj
  | iter : List PyVal → PyObj

/-- Python `float(v)`: ints and floats convert to their real value; a
string converts when it is numeric and raises `ValueError` otherwise. -/
def pyFloatFn : PyVal → Except PyErr ℝ
  | .pyInt n => .ok (n : ℝ)
  | .pyFloat x => .ok x
  | .pyStr (some r) => .ok r
  | .pyStr none => .error .valueError

/-- Use of a value in float arithmetic (e.g. `pos - x_shift` in an energy
formula): ints and floats behave as their real value, a string raises
`TypeError`. -/
def pyArith : PyVal → Except PyErr ℝ
  | .pyInt n => .ok (n : ℝ)
  | .pyFloat x => .ok x
  | .pyStr _ => .error .typeError

/-- Python list comprehension `[f(a) for a in xs]` where evaluating `f`
may raise: elements are evaluated left to right, and the first exception
aborts the whole comprehension. -/
def mapME {α β : Type} (f : α → Except PyErr β) : List α → Except PyErr (List β)
  | [] => .ok []
  | a :: as =>
    match f a with
    | .error e => .error e
    | .ok b =>
      match mapME f as with
      | .error e => .error e
      | .ok bs => .ok (b :: bs)

/-- A Python `for` loop threading an accumulator, where each iteration
may raise: iterations run left to right and the first exception aborts
the loop. -/
def foldME {σ α : Type} (f : σ → α → Except PyErr σ) : σ → List α → Except PyErr σ
  | s, [] => .ok s
  | s, a :: as =>
    match f s a with
    | .error e => .error e
    | .ok s2 => foldME f s2 as

/-- `potential._check_positions_type` (src/potential1D.py lines 14-19):
a scalar of type `float`, `int` or `str` becomes `[float(positions)]`;
a value that is not a `list` is converted element-wise with
`list(map(float, list(positions)))`; a `list` is returned unchanged. -/
def check_positions_type : PyObj → Except PyErr (List PyVal)
  | .scalar v =>
    match pyFloatFn v with
    | .error e => .error e
    | .ok r => .ok [.pyFloat r]
  | .pyList xs => .ok xs
  | .iter xs => mapME (fun v =>
      match pyFloatFn v with
      | .error e => .error e
      | .ok r => .ok (.pyFloat r)) xs

/-- `harmonicOsc1D` (src/potential1D.py lines 90-112): an unperturbed
harmonic oscillator with force constant `fc`, position shift `x_shift`
and energy shift `y_shift`. -/
structure harmonicOsc1D where
  fc : ℝ
  x_shift : ℝ
  y_shift : ℝ

/-- The energy formula of `harmonicOsc1D._calculate_energies` at one
position: `0.5 * fc * (pos - x_shift) ** 2 - y_shift`. -/
def harmonicOsc1D.energyAt (h : harmonicOsc1D) (pos : ℝ) : ℝ :=
  0.5 * h.fc * (pos - h.x_shift) ^ 2 - h.y_shift

/-- `harmonicOsc1D._calculate_energies`: the energy formula applied
elementwise by a list comprehension; a non-numeric element raises
`TypeError` inside the arithmetic. -/
def harmonicOsc1D.calculate_energies (h : harmonicOsc1D) (positions : List PyVal) :
    Except PyErr (List ℝ) :=
  mapME (fun pos =>
    match pyArith pos with
    | .error e => .error e
    | .ok p => .ok (h.energyAt p)) positions

/-- Public `ene`, inherited from `potential.ene` (lines 27-36): normalize
the positions, discard any extra arguments, delegate to
`_calculate_energies`. -/
def harmonicOsc1D.ene (h : harmonicOsc1D) (positions : PyObj) : Except PyErr (List ℝ) :=
  match check_positions_type positions with
  | .error e => .error e
  | .ok ps => h.calculate_energies ps

/-- The derivative formula of `harmonicOsc1D._calculate_dhdpos` at one
position: `fc * (pos - x_shift)`. -/
def harmonicOsc1D.dhdposAt (h : harmonicOsc1D) (pos : ℝ) : ℝ :=
  h.fc * (pos - h.x_shift)

/-- `harmonicOsc1D._calculate_dhdpos`: the derivative formula applied
elementwise. -/
def harmonicOsc1D.calculate_dhdpos (h : harmonicOsc1D) (positions : List PyVal) :
    Except PyErr (List ℝ) :=
  mapME (fun pos =>
    match pyArith pos with
    | .error e => .error e
    | .ok p => .ok (h.dhdposAt p)) positions

/-- Public `dhdpos`, inherited from `potential.dhdpos` (lines 38-46). -/
def harmonicOsc1D.dhdpos (h : harmonicOsc1D) (positions : PyObj) : Except PyErr (List ℝ) :=
  match check_positions_type positions with
  | .error e => .error e
  | .ok ps => h.calculate_dhdpos ps

/-- In Python, multiplying a builtin `list` by a `float` raises
`TypeError` (sequence repetition requires an int).  This models the
expressions `(1.0 - lam) * self.ha.ene(lam, pos)` and
`-self.beta * self.s * self.hb.ene(lam, pos)` in the source, where the
sub-potential call returns a Python list. -/
def floatTimesList (c : ℝ) (xs : List ℝ) : Except PyErr (List ℝ) :=
  Except.error PyErr.typeError

/-- `linCoupledHosc` (src/potential1D.py lines 168-182): owns two
harmonic-oscillator sub-potentials `ha` and `hb` (the constructor
defaults are harmonic oscillators with `fc=1.0` and `fc=11.0`). -/
structure linCoupledHosc where
  ha : harmonicOsc1D
  hb : harmonicOsc1D

/-- One element of `linCoupledHosc._calculate_energies` (line 176):
`(1.0 - lam) * self.ha.ene(lam, pos) + lam * self.hb.ene(lam, pos)`.
Python evaluates `self.ha.ene(lam, pos)` — note the swapped argument
order: `lam` is the positions argument and `pos` lands in the discarded
`*kargs` — obtaining a Python list, and then raises `TypeError` when the
float `1.0 - lam` is multiplied by that list.  The remainder of the
expression is never reached; the trailing error is that `TypeError`. -/
def linCoupledHosc.eneAt (lc : linCoupledHosc) (lam : ℝ) (pos : PyVal) : Except PyErr ℝ :=
  match lc.ha.ene (PyObj.scalar (PyVal.pyFloat lam)) with
  | .error e => .error e
  | .ok ea =>
    match floatTimesList (1 - lam) ea with
    | .error e => .error e
    | .ok _ => .error .typeError

/-- `linCoupledHosc._calculate_energies` (lines 175-176), a list
comprehension over the normalized positions.  `lam` defaults to `1.0`. -/
def linCoupledHosc.calculate_energies (lc : linCoupledHosc) (positions : List PyVal)
    (lam : ℝ) : Except PyErr (List ℝ) :=
  mapME (lc.eneAt lam) positions

/-- Public `ene` of `linCoupledHosc`, inherited from `potential.ene`
(lines 27-36): the base class signature is `ene(self, positions, *kargs)`,
so a caller-supplied `lam` lands in `*kargs` and is discarded; the
private formula runs with its default `lam=1.0`.  The `lam` parameter
here models the discarded caller argument. -/
def linCoupledHosc.ene (lc : linCoupledHosc) (positions : PyObj) (lam : ℝ) :
    Except PyErr (List ℝ) :=
  match check_positions_type positions with
  | .error e => .error e
  | .ok ps => lc.calculate_energies ps 1

/-- One element of `linCoupledHosc._calculate_dhdpos` (line 179):
`(1.0 - lam) * self.ha.dhdpos(lam, pos) + lam * self.hb.dhdpos(lam, pos)`;
as in `eneAt`, the sub-potential is evaluated at the float `lam` and the
float-times-list multiplication raises `TypeError`. -/
def linCoupledHosc.dhdposAt (lc : linCoupledHosc) (lam : ℝ) (pos : PyVal) : Except PyErr ℝ :=
  match lc.ha.dhdpos (PyObj.scalar (PyVal.pyFloat lam)) with
  | .error e => .error e
  | .ok ea =>
    match floatTimesList (1 - lam) ea with
    | .error e => .error e
    | .ok _ => .error .typeError

/-- `linCoupledHosc._calculate_dhdpos` (lines 178-179). -/
def linCoupledHosc.calculate_dhdpos (lc : linCoupledHosc) (positions : List PyVal)
    (lam : ℝ) : Except PyErr (List ℝ) :=
  mapME (lc.dhdposAt lam) positions

/-- Public `dhdpos` of `linCoupledHosc`, inherited from
`potential.dhdpos` (lines 38-46); the caller's `lam` is discarded. -/
def linCoupledHosc.dhdpos (lc : linCoupledHosc) (positions : PyObj) (lam : ℝ) :
    Except PyErr (List ℝ) :=
  match check_positions_type positions with
  | .error e => .error e
  | .ok ps => lc.calculate_dhdpos ps 1

/-- In Python, subtracting one builtin `list` from another raises
`TypeError`.  Models `self.hb.ene(lam, pos) - self.ha.ene(lam, pos)` in
`_calculate_dhdlam` (line 182). -/
def listSubList (xs ys : List ℝ) : Except PyErr ℝ :=
  Except.error PyErr.typeError

/-- One element of `linCoupledHosc._calculate_dhdlam` (line 182):
`self.hb.ene(lam, pos) - self.ha.ene(lam, pos)`.  Both sub-potential
calls are evaluated (again at the float `lam`, with `pos` discarded) and
each returns a Python list; subtracting the two lists raises
`TypeError`.  Note that `linCoupledHosc` derives `potential`, which has
no public `dhdlam`, so this private method is not reachable through any
public operation of the class. -/
def linCoupledHosc.dhdlamAt (lc : linCoupledHosc) (lam : ℝ) (pos : PyVal) : Except PyErr ℝ :=
  match lc.hb.ene (PyObj.scalar (PyVal.pyFloat lam)) with
  | .error e => .error e
  | .ok eb =>
    match lc.ha.ene (PyObj.scalar (PyVal.pyFloat lam)) with
    | .error e => .error e
    | .ok ea => listSubList eb ea

/-- `linCoupledHosc._calculate_dhdlam` (lines 181-182). -/
def linCoupledHosc.calculate_dhdlam (lc : linCoupledHosc) (positions : List PyVal)
    (lam : ℝ) : Except PyErr (List ℝ) :=
  mapME (lc.dhdlamAt lam) positions

/-- The `linCoupledHosc()` constructed with its default sub-potentials
`harmonicOsc1D(fc=1.0, x_shift=0.0)` and `harmonicOsc1D(fc=11.0,
x_shift=0.0)` (line 169); `y_shift` defaults to `0.0`. -/
def linDef : linCoupledHosc :=
  { ha := { fc := 1, x_shift := 0, y_shift := 0 }
    hb := { fc := 11, x_shift := 0, y_shift := 0 } }

/-- `scipy.constants.gas_constant` (CODATA value, J/(mol K)). -/
def gas_constant : ℝ := 8.31446261815324

/-- `expCoupledHosc` (src/potential1D.py lines 185-210): owns `ha`,
`hb`, a scale `s` and `beta`. -/
structure expCoupledHosc where
  ha : harmonicOsc1D
  hb : harmonicOsc1D
  s : ℝ
  beta : ℝ

/-- `expCoupledHosc.__init__` (lines 186-192):
`self.beta = const.gas_constant / 1000.0 * temp`. -/
noncomputable def expCoupledHosc.init (ha hb : harmonicOsc1D) (s temp : ℝ) : expCoupledHosc :=
  { ha := ha, hb := hb, s := s, beta := gas_constant / 1000 * temp }

/-- One element of `expCoupledHosc._calculate_energies` (lines 195-197):
`-1.0 / (beta * s) * np.log(lam * np.exp(-beta * s * self.hb.ene(lam, pos)) + ...)`.
Python first evaluates the innermost `self.hb.ene(lam, pos)` (again with
swapped arguments), obtaining a Python list, then multiplies it by the
float `-beta * s`, which raises `TypeError` before `np.exp` is ever
called. -/
def expCoupledHosc.eneAt (ec : expCoupledHosc) (lam : ℝ) (pos : PyVal) : Except PyErr ℝ :=
  match ec.hb.ene (PyObj.scalar (PyVal.pyFloat lam)) with
  | .error e => .error e
  | .ok eb =>
    match floatTimesList (-ec.beta * ec.s) eb with
    | .error e => .error e
    | .ok _ => .error .typeError

/-- `expCoupledHosc._calculate_energies` (lines 194-197). -/
def expCoupledHosc.calculate_energies (ec : expCoupledHosc) (positions : List PyVal)
    (lam : ℝ) : Except PyErr (List ℝ) :=
  mapME (ec.eneAt lam) positions

/-- Public `ene` of `expCoupledHosc`, inherited from `potential.ene`:
the caller's `lam` is discarded and the private formula runs with its
default `lam=1.0`. -/
def expCoupledHosc.ene (ec : expCoupledHosc) (positions : PyObj) (lam : ℝ) :
    Except PyErr (List ℝ) :=
  match check_positions_type positions with
  | .error e => .error e
  | .ok ps => ec.calculate_energies ps 1

/-- One element of `expCoupledHosc._calculate_dhdpos` (lines 199-203):
the denominator `lam * np.exp(-beta * s * self.hb.ene(lam, pos)) + ...`
is evaluated first and raises `TypeError` at the same float-times-list
multiplication as in `eneAt`. -/
def expCoupledHosc.dhdposAt (ec : expCoupledHosc) (lam : ℝ) (pos : PyVal) : Except PyErr ℝ :=
  match ec.hb.ene (PyObj.scalar (PyVal.pyFloat lam)) with
  | .error e => .error e
  | .ok eb =>
    match floatTimesList (-ec.beta * ec.s) eb with
    | .error e => .error e
    | .ok _ => .error .typeError

/-- `expCoupledHosc._calculate_dhdpos` (lines 199-203). -/
def expCoupledHosc.calculate_dhdpos (ec : expCoupledHosc) (positions : List PyVal)
    (lam : ℝ) : Except PyErr (List ℝ) :=
  mapME (ec.dhdposAt lam) positions

/-- Public `dhdpos` of `expCoupledHosc`, inherited from
`potential.dhdpos`; the caller's `lam` is discarded. -/
def expCoupledHosc.dhdpos (ec : expCoupledHosc) (positions : PyObj) (lam : ℝ) :
    Except PyErr (List ℝ) :=
  match check_positions_type positions with
  | .error e => .error e
  | .ok ps => ec.calculate_dhdpos ps 1

/-- The `expCoupledHosc()` constructed with its defaults (line 186):
`ha = harmonicOsc1D(fc=1.0)`, `hb = harmonicOsc1D(fc=11.0)`, `s=1.0`,
`temp=300.0`. -/
noncomputable def expDef : expCoupledHosc :=
  expCoupledHosc.init { fc := 1, x_shift := 0, y_shift := 0 }
    { fc := 11, x_shift := 0, y_shift := 0 } 1 300

/-- `pertHarmonicOsc1D` (src/potential1D.py lines 143-165): the
perturbed harmonic oscillator
`V = 0.5 * (1 + alpha * lam) * fc * (pos - gamma * lam) ** 2`. -/
structure pertHarmonicOsc1D where
  fc : ℝ
  alpha : ℝ
  gamma : ℝ

/-- The energy formula of `pertHarmonicOsc1D._calculate_energies`
(line 158) at one position:
`0.5 * (1.0 + alpha * lam) * fc * (pos - gamma * lam) ** 2`. -/
def pertHarmonicOsc1D.energyAt (P : pertHarmonicOsc1D) (lam pos : ℝ) : ℝ :=
  0.5 * (1 + P.alpha * lam) * P.fc * (pos - P.gamma * lam) ^ 2

/-- The formula of `pertHarmonicOsc1D._calculate_dhdlam` (lines 163-165)
at one position: `0.5 * alpha * fc * (pos - gamma * lam) ** 2
- (1.0 + alpha * lam) * fc * gamma * (pos - gamma * lam)`. -/
def pertHarmonicOsc1D.dhdlamAt (P : pertHarmonicOsc1D) (lam pos : ℝ) : ℝ :=
  0.5 * P.alpha * P.fc * (pos - P.gamma * lam) ^ 2
    - (1 + P.alpha * lam) * P.fc * P.gamma * (pos - P.gamma * lam)

/-- `pertHarmonicOsc1D._calculate_dhdlam` applied elementwise. -/
def pertHarmonicOsc1D.calculate_dhdlam (P : pertHarmonicOsc1D) (positions : List PyVal)
    (lam : ℝ) : Except PyErr (List ℝ) :=
  mapME (fun pos =>
    match pyArith pos with
    | .error e => .error e
    | .ok p => .ok (P.dhdlamAt lam p)) positions

/-- Public `dhdlam` of `pertHarmonicOsc1D`, inherited from
`perturbedPotential.dhdlam` (lines 79-87): normalize the positions and
pass `lam` through to `_calculate_dhdlam`. -/
def pertHarmonicOsc1D.dhdlam (P : pertHarmonicOsc1D) (positions : PyObj) (lam : ℝ) :
    Except PyErr (List ℝ) :=
  match check_positions_type positions with
  | .error e => .error e
  | .ok ps => P.calculate_dhdlam ps lam

/-- The two-term numerically stable log-sum-exp used inline in
`envelopedPotential._calculate_energies` (lines 246 and 252-253):
`max(m, n) + math.log(1 + math.exp(min(m, n) - max(m, n)))`. -/
noncomputable def combine (m n : ℝ) : ℝ :=
  max m n + Real.log (1 + Real.exp (min m n - max m n))

/-- `envelopedPotential` (src/potential1D.py lines 213-260).  A
sub-potential is represented by its scalar energy function `ℝ → ℝ`:
every concrete potential of the source computes its public `ene`
elementwise over the normalized positions, so on a scalar argument it
returns the one-element list of that function's value (see `subEne`). -/
structure envelopedPotential where
  V_is : List (ℝ → ℝ)
  numStates : ℕ
  s : ℝ
  Eoff_i : List ℝ

/-- `self.V_is[i]`: list indexing, total via a default because
`__init__` guarantees at least two states; the default is never reached
on a constructed envelope. -/
def envelopedPotential.subV (env : envelopedPotential) (i : ℕ) : ℝ → ℝ :=
  env.V_is.getD i (fun _ => 0)

/-- `self.Eoff_i[state]`: list indexing, total via a default because
`__init__` guarantees `len(Eoff_i) == numStates`. -/
def envelopedPotential.Eoff (env : envelopedPotential) (i : ℕ) : ℝ :=
  env.Eoff_i.getD i 0

/-- The public `ene` of a sub-potential called on one scalar position,
as in `self.V_is[0].ene(pos)` (line 244): the base-class normalization
turns the scalar into `[float(pos)]` (raising for a non-numeric string)
and the elementwise energy formula maps over that one-element list. -/
def subEne (f : ℝ → ℝ) (pos : PyVal) : Except PyErr (List ℝ) :=
  match pyFloatFn pos with
  | .error e => .error e
  | .ok r => .ok [f r]

/-- One iteration of the `for state in range(2, self.numStates)` loop of
`envelopedPotential._calculate_energies` (lines 250-254): compute
`partN = [-s * (Vit - Eoff_i[state]) for Vit in V_is[state].ene(pos)]`
and zip it with the running `sum_prefactors` through the two-term
log-sum-exp. -/
noncomputable def envelopedPotential.stateStep (env : envelopedPotential) (pos : PyVal)
    (sp : List ℝ) (state : ℕ) : Except PyErr (List ℝ) :=
  match subEne (env.subV state) pos with
  | .error e => .error e
  | .ok vN =>
    .ok (List.zipWith combine sp (vN.map (fun Vit => -env.s * (Vit - env.Eoff state))))

/-- The body of the `for pos in positions` loop of
`envelopedPotential._calculate_energies` (lines 243-256): compute
`partA` from state 0 and `partB` from state 1, zip them through the
two-term log-sum-exp, fold the remaining states 2..numStates-1 through
the same combination, and return
`sum([-1 / float(s) * partitionF for partitionF in sum_prefactors])`. -/
noncomputable def envelopedPotential.enePos (env : envelopedPotential) (pos : PyVal) :
    Except PyErr ℝ :=
  match subEne (env.subV 0) pos with
  | .error e => .error e
  | .ok vA =>
    match subEne (env.subV 1) pos with
    | .error e => .error e
    | .ok vB =>
      let partA := vA.map (fun Vit => -env.s * (Vit - env.Eoff 0))
      let partB := vB.map (fun Vit => -env.s * (Vit - env.Eoff 1))
      match foldME (env.stateStep pos) (List.zipWith combine partA partB)
          (List.range' 2 (env.numStates - 2)) with
      | .error e => .error e
      | .ok spN => .ok ((spN.map (fun pf => -1 / env.s * pf)).sum)

/-- `envelopedPotential._calculate_energies` (lines 241-257): the outer
`for pos in positions` loop appending one value per position. -/
noncomputable def envelopedPotential.calculate_energies (env : envelopedPotential)
    (positions : List PyVal) : Except PyErr (List ℝ) :=
  mapME env.enePos positions

/-- Public `ene` of `envelopedPotential`, inherited from `potential.ene`
(lines 27-36). -/
noncomputable def envelopedPotential.ene (env : envelopedPotential) (positions : PyObj) :
    Except PyErr (List ℝ) :=
  match check_positions_type positions with
  | .error e => .error e
  | .ok ps => env.calculate_energies ps

/-- `envelopedPotential._calculate_dhdpos` (lines 259-260): always
raises `NotImplementedError`. -/
def envelopedPotential.calculate_dhdpos (env : envelopedPotential)
    (positions : List PyVal) : Except PyErr (List ℝ) :=
  .error .notImplementedError

/-- Public `dhdpos` of `envelopedPotential`, inherited from
`potential.dhdpos` (lines 38-46): the positions are normalized first
(which itself may raise), then `_calculate_dhdpos` raises
`NotImplementedError`. -/
def envelopedPotential.dhdpos (env : envelopedPotential) (positions : PyObj) :
    Except PyErr (List ℝ) :=
  match check_positions_type positions with
  | .error e => .error e
  | .ok ps => env.calculate_dhdpos ps

/-- `envelopedPotential.__init__` (lines 219-239): `numStates` is
`len(V_is)`; fewer than two states raise `IOError`; a missing offset
list defaults to all zeros; an offset list whose length differs from
`numStates` raises `IOError`.  (The spec names both `IOError` raises
"invalid configuration" errors.) -/
def envelopedPotential.init (V_is : List (ℝ → ℝ)) (s : ℝ)
    (Eoff_i : Option (List ℝ)) : Except PyErr envelopedPotential :=
  let numStates := V_is.length
  if numStates < 2 then .error .ioError
  else
    match Eoff_i with
    | none => .ok ⟨V_is, numStates, s, List.replicate numStates 0⟩
    | some E =>
      if E.length ≠ numStates then .error .ioError
      else .ok ⟨V_is, numStates, s, E⟩

/-- A concrete envelope over two zero sub-potentials, as produced by
`envelopedPotential.init` with default offsets. -/
def env2 : envelopedPotential :=
  ⟨[fun _ => 0, fun _ => 0], 2, 1, [0, 0]⟩

/-- A concrete envelope over the identity and squaring sub-potentials
with explicit zero offsets and `s = 1`. -/
def envPair : envelopedPotential :=
  ⟨[fun x => x, fun x => x * x], 2, 1, [0, 0]⟩

/-- If `f` succeeds on every mapped element with value `g a`, the whole
comprehension succeeds with the mapped list. -/
theorem mapME_map_ok {α β γ : Type} (f : β → Except PyErr γ) (m : α → β) (g : α → γ)
    (h : ∀ a, f (m a) = .ok (g a)) :
    ∀ xs : List α, mapME f (xs.map m) = .ok (xs.map g) := by
  intro xs
  induction xs with
  | nil => rfl
  | cons a as ih => simp [List.map, mapME, h a, ih]

/-- The public `ene` of a `harmonicOsc1D` on a scalar argument agrees
with `subEne` of its scalar energy formula: the representation of
sub-potentials used by the envelope is faithful for harmonic
oscillators. -/
theorem harmonicOsc1D_ene_scalar_eq_subEne (h : harmonicOsc1D) (pos : PyVal) :
    h.ene (PyObj.scalar pos) = subEne h.energyAt pos := by
  cases pos with
  | pyInt n => rfl
  | pyFloat x => rfl
  | pyStr o => cases o <;> rfl

/-- On a float position every `subEne` call succeeds, so the state loop
of the envelope keeps a one-element `sum_prefactors` list and reduces to
a scalar left fold of the two-term log-sum-exp. -/
theorem foldME_stateStep_singleton (env : envelopedPotential) (x : ℝ)
    (states : List ℕ) :
    ∀ acc : ℝ,
      foldME (env.stateStep (PyVal.pyFloat x)) [acc] states =
        .ok [states.foldl
          (fun a i => combine a (-env.s * (env.subV i x - env.Eoff i))) acc] := by
  induction states with
  | nil => intro acc; rfl
  | cons i rest ih =>
      intro acc
      have hstep : env.stateStep (PyVal.pyFloat x) [acc] i =
          .ok [combine acc (-env.s * (env.subV i x - env.Eoff i))] := rfl
      simp only [foldME, hstep, List.foldl]
      exact ih _

/-- The envelope's per-position energy on a float position: partA and
partB are one-element lists, the state loop folds left to right, and the
final `sum` collapses the one-element list. -/
theorem enePos_pyFloat (env : envelopedPotential) (x : ℝ) :
    env.enePos (PyVal.pyFloat x) =
      .ok (-1 / env.s *
        ((List.range' 2 (env.numStates - 2)).foldl
          (fun a i => combine a (-env.s * (env.subV i x - env.Eoff i)))
          (combine (-env.s * (env.subV 0 x - env.Eoff 0))
                   (-env.s * (env.subV 1 x - env.Eoff 1))))) := by
  have h0 : env.enePos (PyVal.pyFloat x) =
      match foldME (env.stateStep (PyVal.pyFloat x))
        [combine (-env.s * (env.subV 0 x - env.Eoff 0))
                 (-env.s * (env.subV 1 x - env.Eoff 1))]
        (List.range' 2 (env.numStates - 2)) with
      | Except.error e => Except.error e
      | Except.ok spN => Except.ok ((spN.map (fun pf => -1 / env.s * pf)).sum) := rfl
  rw [h0, foldME_stateStep_singleton]
  simp

/-- The two-term log-sum-exp of equal arguments: `combine a a = a + ln 2`. -/
theorem combine_self (a : ℝ) : combine a a = a + Real.log 2 := by
  simp [combine, Real.exp_zero]
  norm_num

/-- Claim C1: for every `envelopedPotential` constructed from `N >= 2`
sub-potentials, scale `s` and offsets `Eoff`, the public energy
operation computes each position's output independently as
`-(1/s)` times the left-to-right fold (in index order, starting from
`combine(A_0, A_1)`) of the values `A_i = -s * (V_i.energy(pos) - Eoff_i)`
through the two-term log-sum-exp `combine`. -/
theorem C1_envelope_logsumexp (V : List (ℝ → ℝ)) (s : ℝ) (E : List ℝ)
    (env : envelopedPotential)
    (hinit : envelopedPotential.init V s (some E) = .ok env) (xs : List ℝ) :
    env.ene (PyObj.pyList (xs.map PyVal.pyFloat)) =
      .ok (xs.map (fun x =>
        -1 / s *
          (((List.range' 2 (V.length - 2)).map
              (fun i => -s * (V.getD i (fun _ => 0) x - E.getD i 0))).foldl combine
            (combine (-s * (V.getD 0 (fun _ => 0) x - E.getD 0 0))
                     (-s * (V.getD 1 (fun _ => 0) x - E.getD 1 0)))))) := by
  unfold envelopedPotential.init at hinit
  by_cases h2 : V.length < 2
  · simp [h2] at hinit
  · simp only [if_neg h2] at hinit
    by_cases hE : E.length = V.length
    · simp only [hE, ne_eq, not_true_eq_false, if_false] at hinit
      injection hinit with henv
      subst henv
      have key : ∀ x : ℝ,
          (⟨V, V.length, s, E⟩ : envelopedPotential).enePos (PyVal.pyFloat x) =
            .ok (-1 / s *
              (((List.range' 2 (V.length - 2)).map
                  (fun i => -s * (V.getD i (fun _ => 0) x - E.getD i 0))).foldl combine
                (combine (-s * (V.getD 0 (fun _ => 0) x - E.getD 0 0))
                         (-s * (V.getD 1 (fun _ => 0) x - E.getD 1 0))))) := by
        intro x
        rw [enePos_pyFloat]
        simp [envelopedPotential.subV, envelopedPotential.Eoff, List.foldl_map]
      exact mapME_map_ok _ _ _ key xs
    · simp only [ne_eq, hE, not_false_eq_true, if_true] at hinit
      exact Except.noConfusion hinit

/-- Witness for C1: a concrete envelope over the identity and squaring
sub-potentials, `s = 1`, offsets `[0, 0]`, evaluated at position 1. -/
theorem C1_envelope_logsumexp_witness :
    envelopedPotential.init [fun x => x, fun x => x * x] 1 (some [0, 0]) = .ok envPair ∧
    envPair.ene (PyObj.pyList [PyVal.pyFloat 1]) =
      .ok [-1 / 1 * combine (-1 * (1 - 0)) (-1 * (1 * 1 - 0))] :=
  ⟨rfl, C1_envelope_logsumexp [fun x => x, fun x => x * x] 1 [0, 0] envPair rfl [1]⟩

/-- Claim C2 (code bug): the source's `linCoupledHosc._calculate_energies`
never computes `(1-lam)*ha.energy(x) + lam*hb.energy(x)`.  The inherited
`potential.ene` discards the caller's `lam`, the private formula calls
`self.ha.ene(lam, pos)` with the arguments swapped (evaluating `ha` at
the coupling parameter instead of the position), and multiplying the
float `1.0 - lam` by the returned Python list raises `TypeError`.  Both
the public operation and the private formula (even when handed the
caller's `lam` directly) raise `TypeError` on the one-element position
list `[1.0]` with `lam = 0`. -/
theorem C2_linCoupled_typeError :
    linDef.ene (PyObj.scalar (PyVal.pyFloat 1)) 0 = .error .typeError ∧
    linDef.calculate_energies [PyVal.pyFloat 1] 0 = .error .typeError ∧
    linDef.dhdpos (PyObj.scalar (PyVal.pyFloat 1)) 0 = .error .typeError :=
  ⟨rfl, rfl, rfl⟩

/-- Claim C3 (code bug): the source's `expCoupledHosc._calculate_energies`
never computes the soft-max mixture
`-1/(beta*s) * ln(lam*exp(-beta*s*hb.energy(x)) + (1-lam)*exp(-beta*s*ha.energy(x)))`.
The inherited `potential.ene` discards the caller's `lam`, the private
formula calls `self.hb.ene(lam, pos)` with the arguments swapped, and
multiplying the float `-beta*s` by the returned Python list raises
`TypeError` before `np.exp` is reached.  Both the public operation and
the private formula raise `TypeError` on the one-element position list
`[1.0]` with `lam = 1/2`. -/
theorem C3_expCoupled_typeError :
    expDef.ene (PyObj.scalar (PyVal.pyFloat 1)) (1 / 2) = .error .typeError ∧
    expDef.calculate_energies [PyVal.pyFloat 1] (1 / 2) = .error .typeError :=
  ⟨rfl, rfl⟩

/-- Claim C4: envelope construction raises an invalid-configuration
error (`IOError` in the source) when fewer than two sub-potentials are
supplied, or when an explicit offset list has the wrong length; with
`N >= 2` states and a matching (or omitted, zero-defaulted) offset list
it succeeds, and the constructed object satisfies
`len(Eoff_i) == numStates == len(V_is)`. -/
theorem C4_envelope_init :
    (∀ (V : List (ℝ → ℝ)) (s : ℝ) (E : Option (List ℝ)), V.length < 2 →
      envelopedPotential.init V s E = .error .ioError)
    ∧ (∀ (V : List (ℝ → ℝ)) (s : ℝ) (E : List ℝ), 2 ≤ V.length → E.length ≠ V.length →
      envelopedPotential.init V s (some E) = .error .ioError)
    ∧ (∀ (V : List (ℝ → ℝ)) (s : ℝ), 2 ≤ V.length →
      envelopedPotential.init V s none =
        .ok ⟨V, V.length, s, List.replicate V.length 0⟩)
    ∧ (∀ (V : List (ℝ → ℝ)) (s : ℝ) (E : List ℝ), 2 ≤ V.length → E.length = V.length →
      envelopedPotential.init V s (some E) = .ok ⟨V, V.length, s, E⟩)
    ∧ (∀ (V : List (ℝ → ℝ)) (s : ℝ) (E : Option (List ℝ)) (env : envelopedPotential),
      envelopedPotential.init V s E = .ok env →
      env.Eoff_i.length = env.numStates ∧ env.numStates = env.V_is.length) := by
  refine ⟨?_, ?_, ?_, ?_, ?_⟩
  · intro V s E h
    simp [envelopedPotential.init, h]
  · intro V s E h2 hne
    simp [envelopedPotential.init, Nat.not_lt.mpr h2, hne]
  · intro V s h2
    simp [envelopedPotential.init, Nat.not_lt.mpr h2]
  · intro V s E h2 he
    simp [envelopedPotential.init, Nat.not_lt.mpr h2, he]
  · intro V s E env h
    unfold envelopedPotential.init at h
    by_cases h2 : V.length < 2
    · simp [h2] at h
    · simp only [if_neg h2] at h
      cases E with
      | none =>
          injection h with henv
          subst henv
          simp
      | some E2 =>
          by_cases he : E2.length = V.length
          · simp only [ne_eq, he, not_true_eq_false, if_false] at h
            injection h with henv
            subst henv
            simpa using he
          · simp only [ne_eq, he, not_false_eq_true, if_true] at h
            exact Except.noConfusion h

/-- Witness for C4: a one-state envelope and a mismatched offset list
are rejected with the invalid-configuration error; a two-state envelope
with default offsets is built and satisfies the length invariant. -/
theorem C4_envelope_init_witness :
    envelopedPotential.init [fun _ => (0 : ℝ)] 1 none = .error .ioError ∧
    envelopedPotential.init [fun _ => (0 : ℝ), fun _ => 0] 1 (some [0]) =
      .error .ioError ∧
    envelopedPotential.init [fun _ => (0 : ℝ), fun _ => 0] 1 none =
      .ok ⟨[fun _ => 0, fun _ => 0], 2, 1, List.replicate 2 0⟩ ∧
    env2.Eoff_i.length = env2.numStates ∧ env2.numStates = env2.V_is.length :=
  ⟨C4_envelope_init.1 [fun _ => 0] 1 none (by decide),
   C4_envelope_init.2.1 [fun _ => 0, fun _ => 0] 1 [0] (by decide) (by decide),
   C4_envelope_init.2.2.1 [fun _ => 0, fun _ => 0] 1 (by decide),
   C4_envelope_init.2.2.2.2 [fun _ => 0, fun _ => 0] 1 none env2 rfl⟩

/-- Counterexample to C5 as stated: on the malformed scalar input
`"abc"` (a non-numeric string), the public `dhdpos` of an envelope fails
during input normalization with `ValueError`, not with the
not-implemented error the claim promises for every input whatsoever. -/
theorem C5_counterexample :
    env2.dhdpos (PyObj.scalar (PyVal.pyStr none)) = .error .valueError ∧
    (Except.error PyErr.valueError : Except PyErr (List ℝ)) ≠
      .error .notImplementedError := by
  refine ⟨rfl, ?_⟩
  intro h
  injection h with h2
  exact PyErr.noConfusion h2

/-- Claim C5 (amended): the envelope's public `dhdpos` never returns a
value on any input, and on every input that passes normalization it
raises the not-implemented error; malformed input instead fails during
normalization. -/
theorem C5_dhdpos_not_implemented (env : envelopedPotential) (positions : PyObj)
    (ps : List PyVal) (h : check_positions_type positions = .ok ps) :
    env.dhdpos positions = .error .notImplementedError ∧
    ∀ (q : PyObj) (ys : List ℝ), env.dhdpos q ≠ .ok ys := by
  constructor
  · unfold envelopedPotential.dhdpos
    rw [h]
    rfl
  · intro q ys hq
    unfold envelopedPotential.dhdpos at hq
    cases hck : check_positions_type q with
    | error e => rw [hck] at hq; exact Except.noConfusion hq
    | ok ps2 => rw [hck] at hq; exact Except.noConfusion hq

/-- Witness for C5 (amended): the well-formed scalar `0.0` passes
normalization and `dhdpos` raises the not-implemented error on it. -/
theorem C5_dhdpos_not_implemented_witness :
    check_positions_type (PyObj.scalar (PyVal.pyFloat 0)) = .ok [PyVal.pyFloat 0] ∧
    env2.dhdpos (PyObj.scalar (PyVal.pyFloat 0)) = .error .notImplementedError :=
  ⟨rfl, (C5_dhdpos_not_implemented env2 (PyObj.scalar (PyVal.pyFloat 0))
    [PyVal.pyFloat 0] rfl).1⟩

/-- Counterexample to C6 as stated: a `list` input is NOT converted
element-wise to floats — it is passed through unchanged.  The list
`["3"]` containing a numeric string keeps its string element (so the
claimed normalization to `[3.0]` does not happen), and the downstream
energy arithmetic on the string then raises `TypeError`. -/
theorem C6_counterexample :
    check_positions_type (PyObj.pyList [PyVal.pyStr (some 3)]) =
      .ok [PyVal.pyStr (some 3)] ∧
    check_positions_type (PyObj.pyList [PyVal.pyStr (some 3)]) ≠
      .ok [PyVal.pyFloat 3] ∧
    harmonicOsc1D.ene ⟨1, 0, 0⟩ (PyObj.pyList [PyVal.pyStr (some 3)]) =
      .error .typeError := by
  refine ⟨rfl, ?_, rfl⟩
  intro h
  rw [show check_positions_type (PyObj.pyList [PyVal.pyStr (some 3)]) =
      .ok [PyVal.pyStr (some 3)] from rfl] at h
  injection h with h1
  injection h1 with h2 h3
  exact PyVal.noConfusion h2

/-- Claim C6 (amended): normalization maps a single int, float or
numeric string to a one-element float sequence; a `list` is passed
through unchanged (its elements are not converted); every other iterable
is converted element-wise to floats with order preserved; consequently
`energy(3)`, `energy([3])` and `energy("3")` produce one-element results
of equal value. -/
theorem C6_normalization (h : harmonicOsc1D) :
    (∀ n : ℤ, check_positions_type (PyObj.scalar (PyVal.pyInt n)) =
      .ok [PyVal.pyFloat (n : ℝ)])
    ∧ (∀ x : ℝ, check_positions_type (PyObj.scalar (PyVal.pyFloat x)) =
      .ok [PyVal.pyFloat x])
    ∧ (∀ r : ℝ, check_positions_type (PyObj.scalar (PyVal.pyStr (some r))) =
      .ok [PyVal.pyFloat r])
    ∧ (∀ xs : List PyVal, check_positions_type (PyObj.pyList xs) = .ok xs)
    ∧ (∀ xs : List ℝ, check_positions_type (PyObj.iter (xs.map PyVal.pyFloat)) =
      .ok (xs.map PyVal.pyFloat))
    ∧ check_positions_type
        (PyObj.iter [PyVal.pyInt 2, PyVal.pyStr (some 5), PyVal.pyFloat 7]) =
      .ok [PyVal.pyFloat ((2 : ℤ) : ℝ), PyVal.pyFloat 5, PyVal.pyFloat 7]
    ∧ h.ene (PyObj.scalar (PyVal.pyInt 3)) = .ok [h.energyAt ((3 : ℤ) : ℝ)]
    ∧ h.ene (PyObj.pyList [PyVal.pyInt 3]) = .ok [h.energyAt ((3 : ℤ) : ℝ)]
    ∧ h.ene (PyObj.scalar (PyVal.pyStr (some ((3 : ℤ) : ℝ)))) =
      .ok [h.energyAt ((3 : ℤ) : ℝ)] := by
  refine ⟨fun n => rfl, fun x => rfl, fun r => rfl, fun xs => rfl, ?_,
    rfl, rfl, rfl, rfl⟩
  intro xs
  exact mapME_map_ok
    (fun v => match pyFloatFn v with
      | Except.error e => Except.error e
      | Except.ok r => Except.ok (PyVal.pyFloat r))
    PyVal.pyFloat PyVal.pyFloat (fun a => rfl) xs

/-- Claim C7: an envelope over two identical sub-potentials with zero
offsets and `s = 1` returns `sub.energy(x) - ln 2` at every position. -/
theorem C7_envelope_two_identical (f : ℝ → ℝ) (env : envelopedPotential)
    (hinit : envelopedPotential.init [f, f] 1 none = .ok env) (x : ℝ) :
    env.ene (PyObj.scalar (PyVal.pyFloat x)) = .ok [f x - Real.log 2] := by
  have hred : envelopedPotential.init [f, f] 1 none =
      .ok ⟨[f, f], 2, 1, List.replicate 2 0⟩ := rfl
  rw [hred] at hinit
  injection hinit with henv
  subst henv
  have h2 : (⟨[f, f], 2, 1, List.replicate 2 0⟩ : envelopedPotential).enePos
      (PyVal.pyFloat x) =
      .ok (-1 / 1 * combine (-1 * (f x - 0)) (-1 * (f x - 0))) := by
    rw [enePos_pyFloat]
    simp [envelopedPotential.subV, envelopedPotential.Eoff]
  have h3 : (⟨[f, f], 2, 1, List.replicate 2 0⟩ : envelopedPotential).ene
      (PyObj.scalar (PyVal.pyFloat x)) =
      mapME ((⟨[f, f], 2, 1, List.replicate 2 0⟩ : envelopedPotential).enePos)
        [PyVal.pyFloat x] := rfl
  rw [h3]
  simp only [mapME, h2]
  rw [combine_self]
  simp only [Except.ok.injEq, List.cons.injEq, and_true]
  ring

/-- Witness for C7: both sub-potentials the constant zero function,
evaluated at position 0. -/
theorem C7_envelope_two_identical_witness :
    envelopedPotential.init [fun _ => (0 : ℝ), fun _ => (0 : ℝ)] 1 none = .ok env2 ∧
    env2.ene (PyObj.scalar (PyVal.pyFloat 0)) = .ok [(0 : ℝ) - Real.log 2] :=
  ⟨rfl, C7_envelope_two_identical (fun _ => 0) env2 rfl 0⟩

/-- Claim C8 (code bug): `linCoupledHosc` derives the plain `potential`
base class, which has no public `dhdlam`, so no public lambda-derivative
operation exists on it; and the private `_calculate_dhdlam` never
computes `hb.energy(x) - ha.energy(x)`: it evaluates both sub-potentials
at the float `lam` (swapped arguments, position discarded) and then
subtracts one Python list from another, raising `TypeError`. -/
theorem C8_linCoupled_dhdlam_typeError :
    linDef.calculate_dhdlam [PyVal.pyFloat 0] (1 / 2) = .error .typeError ∧
    linDef.dhdlamAt (1 / 2) (PyVal.pyFloat 0) = .error .typeError :=
  ⟨rfl, rfl⟩

/-- Claim C9: `pertHarmonicOsc1D`'s public `lambdaDerivative` (`dhdlam`)
returns, elementwise, exactly
`0.5*alpha*fc*(x - gamma*lam)^2 - (1 + alpha*lam)*fc*gamma*(x - gamma*lam)`,
and that value is the exact partial derivative with respect to lambda of
the model energy `V(x, lam) = 0.5*(1 + alpha*lam)*fc*(x - gamma*lam)^2`
implemented by `_calculate_energies`. -/
theorem C9_pert_dhdlam (P : pertHarmonicOsc1D) (xs : List ℝ) (lam : ℝ) :
    P.dhdlam (PyObj.pyList (xs.map PyVal.pyFloat)) lam =
      .ok (xs.map (fun x =>
        0.5 * P.alpha * P.fc * (x - P.gamma * lam) ^ 2
          - (1 + P.alpha * lam) * P.fc * P.gamma * (x - P.gamma * lam)))
    ∧ ∀ x : ℝ, HasDerivAt (fun l => P.energyAt l x) (P.dhdlamAt lam x) lam := by
  constructor
  · exact mapME_map_ok
      (fun pos => match pyArith pos with
        | Except.error e => Except.error e
        | Except.ok p => Except.ok (P.dhdlamAt lam p))
      PyVal.pyFloat _ (fun a => rfl) xs
  · intro x
    have h1 : HasDerivAt (fun l : ℝ => 1 + P.alpha * l) P.alpha lam := by
      simpa using (hasDerivAt_const lam (1 : ℝ)).add ((hasDerivAt_id lam).const_mul P.alpha)
    have h2 : HasDerivAt (fun l : ℝ => x - P.gamma * l) (-P.gamma) lam := by
      simpa using (hasDerivAt_const lam x).sub ((hasDerivAt_id lam).const_mul P.gamma)
    have h3 := h2.pow 2
    have h4 := ((h1.const_mul (0.5 : ℝ)).mul_const P.fc).mul h3
    unfold pertHarmonicOsc1D.energyAt pertHarmonicOsc1D.dhdlamAt
    convert h4 using 1
    push_cast
    ring

/-- Claim C10: for `linCoupledHosc` and `expCoupledHosc`, the public
`ene` and `dhdpos` operations behave identically for any two
caller-supplied lambda values — the inherited base-class dispatch
discards the extra argument and the private formulas always run with
their default `lam = 1.0`. -/
theorem C10_lambda_discarded (lc : linCoupledHosc) (ec : expCoupledHosc) (p : PyObj)
    (lam1 lam2 : ℝ) :
    lc.ene p lam1 = lc.ene p lam2 ∧ lc.ene p lam1 = lc.ene p 1
    ∧ lc.dhdpos p lam1 = lc.dhdpos p lam2 ∧ lc.dhdpos p lam1 = lc.dhdpos p 1
    ∧ ec.ene p lam1 = ec.ene p lam2 ∧ ec.ene p lam1 = ec.ene p 1
    ∧ ec.dhdpos p lam1 = ec.dhdpos p lam2 ∧ ec.dhdpos p lam1 = ec.dhdpos p 1 :=
  ⟨rfl, rfl, rfl, rfl, rfl, rfl, rfl, rfl⟩
